import Mathlib

/-!
Formal model of the GantryMQ hardware-control server core: the RPC dispatch
and single-operator exclusion protocol implemented in
`src/gmqserver/zmq_server.py` (class `HWControlServer` and `HWBaseInstance`)
together with the client-side response handling in
`src/gmqclient/zmq_client.py` (method `HWControlClient.run_function`).

The embedding is a direct functional translation of the Python code:

* `self._operator_id : Optional[str]` becomes `Option String`;
* each `raise` site becomes an `Except.error` carrying a `GMQError` record
  with the Python exception class name, the message the code builds, and an
  `ErrorKind` tag classifying the raise site (the taxonomy of the design
  document, recorded here so theorems can speak about the kind of failure);
* the `logging` calls become explicit `LogRecord` values; the contents of
  the `MemHandler` buffer that `clear_message` drains and ships with each
  response are returned as the `logs` field of a `StepResult`;
* hardware instances (`HWBaseInstance` subclasses) are abstracted as a
  record carrying the name, the advertised method lists, the
  `is_initialized` / `is_dummy` predicates, and an opaque `methods`
  behaviour for all other attributes reached through `getattr`; each
  method call may mutate the instance state and either return a value or
  raise.  Positional and keyword arguments are not modelled: no property
  below depends on them.
* every invocation that dispatch makes through `getattr(hw, function_name)`
  is recorded in a ghost trace (`calls`), each entry remembering the lock
  state at the moment of the call, so that theorems can state that the
  underlying driver was or was not invoked, and under which operator.
-/

/-- Classification of the failure sites of `zmq_server.py` / the error
taxonomy of the design document: lock contention (`Conflict`), unknown
hardware or method name (`NotFound`), uninitialized hardware (`NotReady`),
and an exception raised by the underlying driver method (`Hardware`). -/
inductive ErrorKind
  | Conflict
  | NotFound
  | NotReady
  | Hardware
deriving DecidableEq, Repr

/-- A Python exception as it travels through `run_server`'s `except` clause:
`pickle` round-trips the exception object, so the wire payload keeps the
concrete Python class (`py_class`) and the message.  `kind` tags which
failure site produced it (see `ErrorKind`). -/
structure GMQError where
  py_class : String
  kind : ErrorKind
  message : String
deriving DecidableEq, Repr

/-- Severity of a log record (`logger.info` / `logger.warn` in the code). -/
inductive LogLevel
  | info
  | warning
deriving DecidableEq, Repr

/-- A `logging.LogRecord` as buffered by `MemHandler` and drained by
`HWControlServer.clear_message`. -/
structure LogRecord where
  level : LogLevel
  message : String
deriving DecidableEq, Repr

/-- A value returned through `return_response`: Python `bool` (from
`is_operator` / `is_initialized` / `is_dummy`), Python `None` (from the
lock-management methods), or a driver-produced value of type `ν`. -/
inductive RValue (ν : Type)
  | bool : Bool → RValue ν
  | pynone : RValue ν
  | val : ν → RValue ν
deriving DecidableEq, Repr

/-- One hardware control instance (`HWBaseInstance` subclass).  `σ` is the
type of its internal mutable state, `ν` the type of values its driver
methods return.  `methods f` models `getattr(hw, f)(*args, **kwargs)` for
any `f` other than the base-class methods `is_initialized` / `is_dummy`:
it may mutate the state and either return a value or raise. -/
structure HWInstance (σ ν : Type) where
  name : String
  state : σ
  telemetry_methods : List String
  operation_methods : List String
  is_initialized : σ → Bool
  is_dummy : σ → Bool
  methods : String → σ → σ × Except GMQError ν

/-- `HWBaseInstance.all_telemetry_methods`:
`self.telemetry_methods + ["is_initialized", "is_dummy"]`. -/
def HWInstance.all_telemetry_methods (hw : HWInstance σ ν) : List String :=
  hw.telemetry_methods ++ ["is_initialized", "is_dummy"]

/-- `HWBaseInstance.all_operation_methods`: `self.operation_methods`. -/
def HWInstance.all_operation_methods (hw : HWInstance σ ν) : List String :=
  hw.operation_methods

/-- `getattr(hw, f)(*args, **kwargs)` for a method name reached by the
dispatcher: the base-class predicates `is_initialized` and `is_dummy`
report on the state without mutating it; every other name is the abstract
driver behaviour `methods`. -/
def HWInstance.invoke (hw : HWInstance σ ν) (f : String) (s : σ) :
    σ × Except GMQError (RValue ν) :=
  if f = "is_initialized" then (s, .ok (.bool (hw.is_initialized s)))
  else if f = "is_dummy" then (s, .ok (.bool (hw.is_dummy s)))
  else
    let r := hw.methods f s
    (r.1, r.2.map .val)

/-- The mutable state of one `HWControlServer`: the operator lock
(`self._operator_id`) and the registered hardware instances
(`self.hw_list`). -/
structure ServerState (σ ν : Type) where
  operator_id : Option String
  hw_list : List (HWInstance σ ν)

/-- Ghost trace entry: one invocation the dispatcher made through
`getattr(hw, function_name)`, remembering the operator lock state at the
moment of the call. -/
structure DriverCall where
  operator_id : Option String
  hw_name : String
  function_name : String
deriving DecidableEq, Repr

/-- Everything observable about the handling of one request: the response
payload (value or raised exception), the server state afterwards, the
ghost trace of driver invocations, and the log records emitted during the
handling (what `clear_message` will drain into the response). -/
structure StepResult (σ ν : Type) where
  ret : Except GMQError (RValue ν)
  state : ServerState σ ν
  calls : List DriverCall
  logs : List LogRecord

/-- `HWControlServer.claim_operator(client_id, error_if_claimed)`.
Returns the new `_operator_id` together with the log records the call
emitted, or the raised `RuntimeError` (in which case `_operator_id` is
unchanged: the `raise` happens before the assignment).  The message
strings are the `_collapse_str_`-collapsed texts of the source. -/
def claim_operator (operator_id : Option String) (client_id : String)
    (error_if_claimed : Bool) : Except GMQError (Option String × List LogRecord) :=
  match operator_id with
  | none =>
      .ok (some client_id,
        [⟨.info, "Claiming operation with ID " ++ client_id⟩])
  | some cur =>
      if cur ≠ client_id then
        if error_if_claimed then
          .error ⟨"RuntimeError", .Conflict,
            "Operator is claimed by [" ++ cur ++ "], this operator needs to " ++
            "release control or explicitly claimed before the requested " ++
            "function from [" ++ client_id ++ "]can be processed."⟩
        else
          .ok (some client_id,
            [⟨.warning,
              "Claiming operator id from existing client [" ++ cur ++ "]! " ++
              "This may cause the existing client to misbehave unless reclaimed."⟩])
      else
        .ok (some client_id, [])

/-- `HWControlServer.release_operator(client_id)`.  Returns the new
`_operator_id` (always `None` on success) with the emitted log records, or
the raised `RuntimeError` when a different client holds the lock. -/
def release_operator (operator_id : Option String) (client_id : String) :
    Except GMQError (Option String × List LogRecord) :=
  match operator_id with
  | some cur =>
      if cur ≠ client_id then
        .error ⟨"RuntimeError", .Conflict,
          "Release can only be called by the operator who has claimed this " ++
          "message! Current operator is [" ++ cur ++ "]"⟩
      else
        .ok (none, [⟨.info, "Releasing operator [" ++ client_id ++ "]"⟩])
  | none =>
      .ok (none, [⟨.info, "Releasing operator [" ++ client_id ++ "]"⟩])

/-- `HWControlServer.hw_instance(hw_name)`: linear search of `self.hw_list`
by name, raising `RuntimeError` when absent. -/
def hw_instance (hw_list : List (HWInstance σ ν)) (hw_name : String) :
    Except GMQError (HWInstance σ ν) :=
  match hw_list.find? (fun x => x.name = hw_name) with
  | some x => .ok x
  | none =>
      .error ⟨"RuntimeError", .NotFound,
        "Hardware instance [" ++ hw_name ++ "] is not found"⟩

/-- Replace the state of the (uniquely named) instance `name` in the list:
the Python methods mutate the found instance in place. -/
def update_hw (hw_list : List (HWInstance σ ν)) (name : String) (s : σ) :
    List (HWInstance σ ν) :=
  hw_list.map (fun h => if h.name = name then { h with state := s } else h)

/-- The part of `HWControlServer.run_single_request` after the hardware
instance has been resolved (lines 165-179 of `zmq_server.py`): the
`assert hw.is_initialized()` readiness check, then classification of
`function_name` against `all_telemetry_methods` / `all_operation_methods`
(auto-claiming with `error_if_claimed=True` before an operation method),
and the final `RuntimeError` for an unrecognized name.  The `python`
message of the assertion also interpolates `type(hw)`, which is not
modelled. -/
def dispatch_methods (st : ServerState σ ν) (client_id : String)
    (hw : HWInstance σ ν) (function_name : String) : StepResult σ ν :=
  if hw.is_initialized hw.state = false then
    { ret := .error ⟨"AssertionError", .NotReady,
        "Hardware <" ++ hw.name ++ "> is not initialized"⟩,
      state := st, calls := [], logs := [] }
  else if function_name ∈ hw.all_telemetry_methods then
    let r := hw.invoke function_name hw.state
    { ret := r.2,
      state := { st with hw_list := update_hw st.hw_list hw.name r.1 },
      calls := [⟨st.operator_id, hw.name, function_name⟩],
      logs := [] }
  else if function_name ∈ hw.all_operation_methods then
    match claim_operator st.operator_id client_id true with
    | .error e => { ret := .error e, state := st, calls := [], logs := [] }
    | .ok (op2, clogs) =>
        let r := hw.invoke function_name hw.state
        { ret := r.2,
          state := { st with operator_id := op2,
                             hw_list := update_hw st.hw_list hw.name r.1 },
          calls := [⟨op2, hw.name, function_name⟩],
          logs := clogs }
  else
    { ret := .error ⟨"RuntimeError", .NotFound,
        "Function <" ++ function_name ++ "> of hardware <" ++ hw.name ++
        "> not recognized!"⟩,
      state := st, calls := [], logs := [] }

/-- `HWControlServer.run_single_request(client_id, hw_name, function_name,
args, kwargs)`: the three lock-management pseudo-methods are handled first
(never touching any hardware instance), then the hardware instance is
resolved and the request dispatched against it. -/
def run_single_request (st : ServerState σ ν) (client_id hw_name function_name : String) :
    StepResult σ ν :=
  if function_name = "is_operator" then
    { ret := .ok (.bool (decide (st.operator_id = some client_id))),
      state := st, calls := [], logs := [] }
  else if function_name = "claim_operator" then
    match claim_operator st.operator_id client_id false with
    | .ok (op2, clogs) =>
        { ret := .ok .pynone, state := { st with operator_id := op2 },
          calls := [], logs := clogs }
    | .error e => { ret := .error e, state := st, calls := [], logs := [] }
  else if function_name = "release_operator" then
    match release_operator st.operator_id client_id with
    | .ok (op2, clogs) =>
        { ret := .ok .pynone, state := { st with operator_id := op2 },
          calls := [], logs := clogs }
    | .error e => { ret := .error e, state := st, calls := [], logs := [] }
  else
    match hw_instance st.hw_list hw_name with
    | .error e => { ret := .error e, state := st, calls := [], logs := [] }
    | .ok hw => dispatch_methods st client_id hw function_name

/-- The kind of error a computation raised, if any. -/
def errKind {α : Type} : Except GMQError α → Option ErrorKind
  | .error e => some e.kind
  | .ok _ => none

/-- Observation of a successful lock-method call: the new `_operator_id`
and the severities of the log records it emitted (`none` when the call
raised). -/
def okLevels : Except GMQError (Option String × List LogRecord) →
    Option (Option String × List LogLevel)
  | .ok (op, logs) => some (op, logs.map LogRecord.level)
  | .error _ => none

/-- One operation applied to the operator lock over the lifetime of the
server: an explicit claim through the `claim_operator` pseudo-method
(`error_if_claimed=False`), an explicit release, or the implicit
auto-claim performed before an operation method
(`claim_operator(client_id, error_if_claimed=True)`, line 173). -/
inductive LockOp
  | claim : String → LockOp
  | release : String → LockOp
  | autoclaim : String → LockOp
deriving DecidableEq, Repr

/-- The effect of one lock operation on `_operator_id`: a raised
`RuntimeError` leaves the field unchanged (the `raise` precedes every
assignment in `claim_operator` / `release_operator`). -/
def applyLockOp (operator_id : Option String) : LockOp → Option String
  | .claim c =>
      match claim_operator operator_id c false with
      | .ok (op2, _) => op2
      | .error _ => operator_id
  | .release c =>
      match release_operator operator_id c with
      | .ok (op2, _) => op2
      | .error _ => operator_id
  | .autoclaim c =>
      match claim_operator operator_id c true with
      | .ok (op2, _) => op2
      | .error _ => operator_id

/-- The operator lock state after a sequence of claim / release /
auto-claim operations. -/
def applyLockOps (operator_id : Option String) (ops : List LockOp) : Option String :=
  ops.foldl applyLockOp operator_id

/-- The `is_operator` pseudo-method (line 153-154): `client_id ==
self._operator_id`, `False` when the lock is unclaimed (`None` never
equals a string). -/
def is_operator (operator_id : Option String) (client_id : String) : Bool :=
  operator_id = some client_id

/-- A decoded request envelope as unpickled by `run_server` and passed to
`run_single_request` (`args` / `kwargs` are not modelled, see above). -/
structure Request where
  client_id : String
  hw_name : String
  function_name : String
deriving DecidableEq, Repr

/-- A response envelope as pickled by the server: either
`{"messages": ..., "return": ...}` from `return_response`, or
`{"messages": ..., "exception": err}` from the `except` clause of
`run_server` — the exception object itself is pickled, class and all. -/
inductive Response (ν : Type)
  | ret : List LogRecord → RValue ν → Response ν
  | exc : List LogRecord → GMQError → Response ν
deriving DecidableEq, Repr

/-- One iteration of `HWControlServer.run_server`: the request is logged
(`self.logger.info(request)` — modelled as an info record so the drained
message list has the shape the code produces), `run_single_request` runs,
and either the `return_response` payload or the caught exception is sent
back together with the drained log records. -/
def serve_one (st : ServerState σ ν) (req : Request) :
    Response ν × ServerState σ ν :=
  let request_record : LogRecord := ⟨.info, "request"⟩
  let r := run_single_request st req.client_id req.hw_name req.function_name
  match r.ret with
  | .ok v => (.ret (request_record :: r.logs) v, r.state)
  | .error e => (.exc (request_record :: r.logs) e, r.state)

/-- The tail of `HWControlClient.run_function`: re-emit every log record of
the response locally, then either return `response["return"]` or
`raise response["exception"]` — the very exception object the server
pickled, whose Python class the client can (and does) inspect with
`type(response["exception"])`. -/
def client_handle (resp : Response ν) : List LogRecord × Except GMQError (RValue ν) :=
  match resp with
  | .ret msgs v => (msgs, .ok v)
  | .exc msgs e => (msgs, .error e)

/-! Concrete instances used to exercise the theorems below on explicit
inputs.  `dummyHW` mirrors the `DummyHW` test class declared in the
`__main__` block of `zmq_server.py` (a counter with telemetry
`check_counter` and operation `add_counter`, always initialized);
`cameraHW` and `psuHW` realize the scenario endpoints of the design
document (an uninitialized camera, a power supply whose driver raises). -/

/-- The `DummyHW` test class of `zmq_server.py`: state is the counter. -/
def dummyHW : HWInstance Nat Nat :=
  { name := "dummy"
    state := 0
    telemetry_methods := ["check_counter"]
    operation_methods := ["add_counter"]
    is_initialized := fun _ => true
    is_dummy := fun _ => false
    methods := fun f s =>
      if f = "check_counter" then (s, .ok s)
      else if f = "add_counter" then (s + 1, .ok (s + 1))
      else (s, .error ⟨"AttributeError", .Hardware, "no attribute"⟩) }

/-- An endpoint named `camera` whose `is_initialized()` returns `False`. -/
def cameraHW : HWInstance Nat Nat :=
  { name := "camera"
    state := 0
    telemetry_methods := ["get_frame"]
    operation_methods := []
    is_initialized := fun _ => false
    is_dummy := fun _ => false
    methods := fun _ s => (s, .ok s) }

/-- An initialized endpoint named `psu` whose operation method raises. -/
def psuHW : HWInstance Nat Nat :=
  { name := "psu"
    state := 0
    telemetry_methods := []
    operation_methods := ["set_voltage"]
    is_initialized := fun _ => true
    is_dummy := fun _ => false
    methods := fun _ s => (s, .error ⟨"RuntimeError", .Hardware, "driver fault"⟩) }

/-- A server holding the dummy endpoint, lock unclaimed. -/
def stDummy : ServerState Nat Nat := ⟨none, [dummyHW]⟩

/-- A server holding the dummy endpoint, lock held by client `B`. -/
def stHeldB : ServerState Nat Nat := ⟨some "B", [dummyHW]⟩

/-- A server holding the uninitialized camera endpoint. -/
def stCam : ServerState Nat Nat := ⟨none, [cameraHW]⟩

/-- A server holding the raising power-supply endpoint, lock unclaimed. -/
def stPsu : ServerState Nat Nat := ⟨none, [psuHW]⟩

/-- A server with no registered hardware at all. -/
def stEmpty : ServerState Nat Nat := ⟨none, []⟩

/-- A request for an unknown endpoint, used to exhibit a concrete error
response on the wire. -/
def reqUnknown : Request := ⟨"clientA", "x", "foo"⟩

/-- The exception `hw_instance` raises for `reqUnknown`, as the client
receives it: the Python class name crosses the wire. -/
def errUnknown : GMQError :=
  ⟨"RuntimeError", .NotFound, "Hardware instance [x] is not found"⟩

/-! Theorems.  Each claim of the specification is settled by one theorem
about the definitions above. -/

/-- Shared helper: on any method name other than the three lock-management
pseudo-methods, `run_single_request` resolves the hardware instance and
defers to `dispatch_methods`. -/
theorem run_single_request_hw {σ ν : Type} (st : ServerState σ ν)
    (client_id hw_name fn : String)
    (h1 : fn ≠ "is_operator") (h2 : fn ≠ "claim_operator")
    (h3 : fn ≠ "release_operator") :
    run_single_request st client_id hw_name fn =
      match hw_instance st.hw_list hw_name with
      | .error e => { ret := .error e, state := st, calls := [], logs := [] }
      | .ok hw => dispatch_methods st client_id hw fn := by
  simp [run_single_request, h1, h2, h3]

/-- Claim C1: for every sequence of claim, release and auto-claim
operations applied to the operator lock starting from the unclaimed
state, at most one caller is the holder at any time: whenever two callers
both pass the `is_operator` test on the resulting state, they are the
same caller.  (Every prefix of a sequence is itself a sequence, so this
covers all intermediate states.) -/
theorem C1_mutual_exclusion (ops : List LockOp) (c₁ c₂ : String)
    (h₁ : is_operator (applyLockOps none ops) c₁ = true)
    (h₂ : is_operator (applyLockOps none ops) c₂ = true) : c₁ = c₂ := by
  simp only [is_operator, decide_eq_true_eq] at h₁ h₂
  rw [h₁] at h₂
  exact Option.some.inj h₂

/-- Witness for C1 at a concrete operation sequence. -/
theorem C1_mutual_exclusion_witness :
    is_operator (applyLockOps none
      [LockOp.claim "A", LockOp.release "A", LockOp.autoclaim "B"]) "B" = true
    ∧ ("B" : String) = "B" :=
  ⟨by decide,
   C1_mutual_exclusion [LockOp.claim "A", LockOp.release "A", LockOp.autoclaim "B"]
     "B" "B" (by decide) (by decide)⟩

/-- Claim C3: `claim_operator` (the code's `error_if_claimed` flag is the
negation of the specification's `force`): from unclaimed it moves to held
by the caller (with an info record); a repeated claim by the holder is a
successful no-op; a forced claim over another holder succeeds and emits
exactly one warning record; an unforced claim over another holder raises
a Conflict error and leaves the holder unchanged. -/
theorem C3_claim_operator_cases (c o : String) (b : Bool) (h : o ≠ c) :
    okLevels (claim_operator none c b) = some (some c, [.info])
  ∧ okLevels (claim_operator (some c) c b) = some (some c, [])
  ∧ okLevels (claim_operator (some o) c false) = some (some c, [.warning])
  ∧ errKind (claim_operator (some o) c true) = some .Conflict
  ∧ applyLockOp (some o) (.autoclaim c) = some o := by
  refine ⟨?_, ?_, ?_, ?_, ?_⟩ <;>
    simp [claim_operator, okLevels, errKind, applyLockOp, h]

/-- Witness for C3 at concrete caller ids. -/
theorem C3_claim_operator_cases_witness :
    ("B" : String) ≠ "A"
  ∧ (okLevels (claim_operator none "A" false) = some (some "A", [.info])
     ∧ okLevels (claim_operator (some "A") "A" false) = some (some "A", [])
     ∧ okLevels (claim_operator (some "B") "A" false) = some (some "A", [.warning])
     ∧ errKind (claim_operator (some "B") "A" true) = some .Conflict
     ∧ applyLockOp (some "B") (.autoclaim "A") = some "B") :=
  ⟨by decide, C3_claim_operator_cases "A" "B" false (by decide)⟩

/-- Claim C4: `release_operator`: release by the holder returns the lock
to unclaimed; release while unclaimed is an idempotent success; release
by a non-holder raises a Conflict error and leaves the holder
unchanged. -/
theorem C4_release_operator_cases (c o : String) (h : o ≠ c) :
    okLevels (release_operator (some c) c) = some (none, [.info])
  ∧ okLevels (release_operator none c) = some (none, [.info])
  ∧ errKind (release_operator (some o) c) = some .Conflict
  ∧ applyLockOp (some o) (.release c) = some o := by
  refine ⟨?_, ?_, ?_, ?_⟩ <;>
    simp [release_operator, okLevels, errKind, applyLockOp, h]

/-- Witness for C4 at concrete caller ids. -/
theorem C4_release_operator_cases_witness :
    ("B" : String) ≠ "A"
  ∧ (okLevels (release_operator (some "A") "A") = some (none, [.info])
     ∧ okLevels (release_operator none "A") = some (none, [.info])
     ∧ errKind (release_operator (some "B") "A") = some .Conflict
     ∧ applyLockOp (some "B") (.release "A") = some "B") :=
  ⟨by decide, C4_release_operator_cases "A" "B" (by decide)⟩

/-- Claim C2: dispatching an operation method of a registered, initialized
endpoint: while the lock is unclaimed, dispatch performs exactly one lock
transition (unclaimed to held by the caller) and the single driver
invocation happens with the lock already held by the caller; while the
lock is held by a different caller, the request raises a Conflict error,
the driver is never invoked and the server state is unchanged.  (A name
listed in `all_telemetry_methods` is classified as telemetry first, so an
operation method here is one not shadowed by the telemetry list.) -/
theorem C2_operation_dispatch {σ ν : Type} (st : ServerState σ ν)
    (client_id hw_name fn : String) (hw : HWInstance σ ν)
    (h1 : fn ≠ "is_operator") (h2 : fn ≠ "claim_operator")
    (h3 : fn ≠ "release_operator")
    (hfind : hw_instance st.hw_list hw_name = .ok hw)
    (hinit : hw.is_initialized hw.state = true)
    (htel : fn ∉ hw.all_telemetry_methods)
    (hop : fn ∈ hw.all_operation_methods) :
    (st.operator_id = none →
       (run_single_request st client_id hw_name fn).state.operator_id = some client_id
     ∧ (run_single_request st client_id hw_name fn).calls =
         [⟨some client_id, hw.name, fn⟩])
  ∧ (∀ other, st.operator_id = some other → other ≠ client_id →
       errKind (run_single_request st client_id hw_name fn).ret = some .Conflict
     ∧ (run_single_request st client_id hw_name fn).calls = []
     ∧ (run_single_request st client_id hw_name fn).state = st) := by
  rw [run_single_request_hw st client_id hw_name fn h1 h2 h3, hfind]
  constructor
  · intro hnone
    simp [dispatch_methods, hinit, htel, hop, claim_operator, hnone]
  · intro other hsome hne
    simp [dispatch_methods, hinit, htel, hop, claim_operator, hsome, hne, errKind]

/-- Witness for C2: the first operation call on the dummy endpoint
auto-claims the lock for client `A` and invokes the driver under it. -/
theorem C2_operation_dispatch_witness :
    (run_single_request stDummy "A" "dummy" "add_counter").state.operator_id = some "A"
  ∧ (run_single_request stDummy "A" "dummy" "add_counter").calls =
      [⟨some "A", "dummy", "add_counter"⟩] :=
  (C2_operation_dispatch stDummy "A" "dummy" "add_counter" dummyHW
    (by decide) (by decide) (by decide) rfl rfl (by decide) (by decide)).1 rfl

/-- Claim C5: a method name in neither the telemetry nor the operation set
of the resolved initialized endpoint raises a NotFound error; the driver
is never invoked and neither the endpoint states nor the lock change. -/
theorem C5_unrecognized_not_found {σ ν : Type} (st : ServerState σ ν)
    (client_id hw_name fn : String) (hw : HWInstance σ ν)
    (h1 : fn ≠ "is_operator") (h2 : fn ≠ "claim_operator")
    (h3 : fn ≠ "release_operator")
    (hfind : hw_instance st.hw_list hw_name = .ok hw)
    (hinit : hw.is_initialized hw.state = true)
    (htel : fn ∉ hw.all_telemetry_methods)
    (hop : fn ∉ hw.all_operation_methods) :
    errKind (run_single_request st client_id hw_name fn).ret = some .NotFound
  ∧ (run_single_request st client_id hw_name fn).calls = []
  ∧ (run_single_request st client_id hw_name fn).state = st := by
  rw [run_single_request_hw st client_id hw_name fn h1 h2 h3, hfind]
  simp [dispatch_methods, hinit, htel, hop, errKind]

/-- Witness for C5: an unknown method name on the dummy endpoint. -/
theorem C5_unrecognized_not_found_witness :
    errKind (run_single_request stDummy "A" "dummy" "bogus").ret = some .NotFound
  ∧ (run_single_request stDummy "A" "dummy" "bogus").calls = []
  ∧ (run_single_request stDummy "A" "dummy" "bogus").state = stDummy :=
  C5_unrecognized_not_found stDummy "A" "dummy" "bogus" dummyHW
    (by decide) (by decide) (by decide) rfl rfl (by decide) (by decide)

/-- Claim C6: any non-pseudo-method request to a registered endpoint whose
`is_initialized()` is false raises a NotReady error (the failed
assertion) and no driver invocation is attempted. -/
theorem C6_uninitialized_not_ready {σ ν : Type} (st : ServerState σ ν)
    (client_id hw_name fn : String) (hw : HWInstance σ ν)
    (h1 : fn ≠ "is_operator") (h2 : fn ≠ "claim_operator")
    (h3 : fn ≠ "release_operator")
    (hfind : hw_instance st.hw_list hw_name = .ok hw)
    (hinit : hw.is_initialized hw.state = false) :
    errKind (run_single_request st client_id hw_name fn).ret = some .NotReady
  ∧ (run_single_request st client_id hw_name fn).calls = []
  ∧ (run_single_request st client_id hw_name fn).state = st := by
  rw [run_single_request_hw st client_id hw_name fn h1 h2 h3, hfind]
  simp [dispatch_methods, hinit, errKind]

/-- Witness for C6: the uninitialized camera endpoint refuses a
`get_frame` telemetry call with NotReady, capture driver untouched. -/
theorem C6_uninitialized_not_ready_witness :
    errKind (run_single_request stCam "A" "camera" "get_frame").ret = some .NotReady
  ∧ (run_single_request stCam "A" "camera" "get_frame").calls = []
  ∧ (run_single_request stCam "A" "camera" "get_frame").state = stCam :=
  C6_uninitialized_not_ready stCam "A" "camera" "get_frame" cameraHW
    (by decide) (by decide) (by decide) rfl rfl

/-- Claim C7: a telemetry method of a registered, initialized endpoint is
invoked exactly once whatever the operator lock state (the trace records
the unchanged lock at the moment of the call), the lock is left unchanged
and no lock-related log record is emitted; when the driver returns a
value, that value is the response. -/
theorem C7_telemetry_dispatch {σ ν : Type} (st : ServerState σ ν)
    (client_id hw_name fn : String) (hw : HWInstance σ ν)
    (h1 : fn ≠ "is_operator") (h2 : fn ≠ "claim_operator")
    (h3 : fn ≠ "release_operator")
    (hfind : hw_instance st.hw_list hw_name = .ok hw)
    (hinit : hw.is_initialized hw.state = true)
    (htel : fn ∈ hw.all_telemetry_methods) :
    (run_single_request st client_id hw_name fn).calls =
      [⟨st.operator_id, hw.name, fn⟩]
  ∧ (run_single_request st client_id hw_name fn).state.operator_id = st.operator_id
  ∧ (run_single_request st client_id hw_name fn).logs = []
  ∧ (∀ s2 v, hw.invoke fn hw.state = (s2, .ok v) →
       (run_single_request st client_id hw_name fn).ret = .ok v) := by
  rw [run_single_request_hw st client_id hw_name fn h1 h2 h3, hfind]
  refine ⟨?_, ?_, ?_, ?_⟩
  · simp [dispatch_methods, hinit, htel]
  · simp [dispatch_methods, hinit, htel]
  · simp [dispatch_methods, hinit, htel]
  · intro s2 v hinv
    simp [dispatch_methods, hinit, htel, hinv]

/-- Witness for C7: client `A` reads `check_counter` while the lock is
held by client `B`; the call goes through and the lock stays with `B`. -/
theorem C7_telemetry_dispatch_witness :
    (run_single_request stHeldB "A" "dummy" "check_counter").calls =
      [⟨some "B", "dummy", "check_counter"⟩]
  ∧ (run_single_request stHeldB "A" "dummy" "check_counter").state.operator_id = some "B"
  ∧ (run_single_request stHeldB "A" "dummy" "check_counter").logs = []
  ∧ (∀ s2 v, dummyHW.invoke "check_counter" dummyHW.state = (s2, .ok v) →
       (run_single_request stHeldB "A" "dummy" "check_counter").ret = .ok v) :=
  C7_telemetry_dispatch stHeldB "A" "dummy" "check_counter" dummyHW
    (by decide) (by decide) (by decide) rfl rfl (by decide)

/-- Claim C9: because the readiness assertion precedes method
classification, a dispatched `is_initialized` call on a registered but
uninitialized endpoint raises NotReady instead of returning, and no
dispatched `is_initialized` call ever answers `false`: a remote caller
can never receive `false` from it. -/
theorem C9_is_initialized_dispatch {σ ν : Type} (st : ServerState σ ν)
    (client_id hw_name : String) (hw : HWInstance σ ν)
    (hfind : hw_instance st.hw_list hw_name = .ok hw) :
    (hw.is_initialized hw.state = false →
       errKind (run_single_request st client_id hw_name "is_initialized").ret =
         some .NotReady)
  ∧ (run_single_request st client_id hw_name "is_initialized").ret ≠
      .ok (.bool false) := by
  rw [run_single_request_hw st client_id hw_name "is_initialized"
    (by decide) (by decide) (by decide), hfind]
  constructor
  · intro hinit
    simp [dispatch_methods, hinit, errKind]
  · cases hinit : hw.is_initialized hw.state
    · simp [dispatch_methods, hinit]
    · have htel : "is_initialized" ∈ hw.all_telemetry_methods := by
        simp [HWInstance.all_telemetry_methods]
      simp [dispatch_methods, hinit, htel, HWInstance.invoke]

/-- Witness for C9 on the uninitialized camera endpoint. -/
theorem C9_is_initialized_dispatch_witness :
    errKind (run_single_request stCam "A" "camera" "is_initialized").ret =
      some .NotReady
  ∧ (run_single_request stCam "A" "camera" "is_initialized").ret ≠
      .ok (.bool false) :=
  ⟨(C9_is_initialized_dispatch stCam "A" "camera" cameraHW rfl).1 rfl,
   (C9_is_initialized_dispatch stCam "A" "camera" cameraHW rfl).2⟩

/-- Claim C10: when an operation-method dispatch auto-claims the lock and
the driver method then raises, the raised exception becomes the error
response but the lock stays held by the caller: the auto-claim is not
rolled back. -/
theorem C10_autoclaim_not_rolled_back {σ ν : Type} (st : ServerState σ ν)
    (client_id hw_name fn : String) (hw : HWInstance σ ν)
    (h1 : fn ≠ "is_operator") (h2 : fn ≠ "claim_operator")
    (h3 : fn ≠ "release_operator")
    (hfind : hw_instance st.hw_list hw_name = .ok hw)
    (hinit : hw.is_initialized hw.state = true)
    (htel : fn ∉ hw.all_telemetry_methods)
    (hop : fn ∈ hw.all_operation_methods)
    (hnone : st.operator_id = none)
    (s2 : σ) (e : GMQError)
    (hraise : hw.invoke fn hw.state = (s2, .error e)) :
    (run_single_request st client_id hw_name fn).ret = .error e
  ∧ (run_single_request st client_id hw_name fn).state.operator_id = some client_id := by
  rw [run_single_request_hw st client_id hw_name fn h1 h2 h3, hfind]
  simp [dispatch_methods, hinit, htel, hop, claim_operator, hnone, hraise]

/-- Witness for C10: `set_voltage` on the faulty power supply raises after
the auto-claim; the error is returned and client `A` keeps the lock. -/
theorem C10_autoclaim_not_rolled_back_witness :
    (run_single_request stPsu "A" "psu" "set_voltage").ret =
      .error ⟨"RuntimeError", .Hardware, "driver fault"⟩
  ∧ (run_single_request stPsu "A" "psu" "set_voltage").state.operator_id = some "A" :=
  C10_autoclaim_not_rolled_back stPsu "A" "psu" "set_voltage" psuHW
    (by decide) (by decide) (by decide) rfl rfl (by decide) (by decide) rfl
    0 ⟨"RuntimeError", .Hardware, "driver fault"⟩ rfl

/-- Counterexample to claim C8 as stated: the wire payload of an error
response is the pickled server-side exception object itself, class name
included, and the client receives exactly that object — here the
`RuntimeError` raised for an unknown endpoint, whose Python class the
client can observe. -/
theorem C8_error_payload_counterexample :
    (serve_one stEmpty reqUnknown).1 = .exc [⟨.info, "request"⟩] errUnknown
  ∧ (client_handle (serve_one stEmpty reqUnknown).1).2 = .error errUnknown
  ∧ errUnknown.py_class = "RuntimeError" :=
  ⟨rfl, rfl, rfl⟩

/-- Claim C8 (amended): every error response forwards the original
server-side exception object across the wire unchanged — the client
re-raises the very exception the server caught, so the exact server-side
exception class is preserved and observable by the client. -/
theorem C8_exception_forwarded {σ ν : Type} (st : ServerState σ ν)
    (req : Request) (msgs : List LogRecord) (e : GMQError)
    (h : (serve_one st req).1 = .exc msgs e) :
    (client_handle (serve_one st req).1).2 = .error e := by
  rw [h]
  rfl

/-- Witness for the amended C8 at the unknown-endpoint request. -/
theorem C8_exception_forwarded_witness :
    (client_handle (serve_one stEmpty reqUnknown).1).2 = .error errUnknown :=
  C8_exception_forwarded stEmpty reqUnknown [⟨.info, "request"⟩] errUnknown rfl
